import Mathlib

/-!
A shallow embedding of `src/blockchain.js` (the `Blockchain` class of the
private-blockchain ledger) and proofs about it.

Modelling conventions:
* JavaScript `undefined`/`null` field values are modelled as `Option.none`.
* The external SHA-256 digest (`crypto-js/sha256` applied to
  `JSON.stringify(block)`) is modelled as an ideal collision-free digest: an
  inductive value that records exactly the fields the stringified block
  contains at hashing time (`body`, `time`, `height`, `previousBlockHash`).
  Constructor injectivity models collision resistance; determinism is
  function-ality.  The spec treats the digest as an opaque deterministic
  collision-resistant function, and the code never inspects hash strings.
* The external signature verifier (`bitcoinjs-message`'s `verify`) is an
  opaque boolean oracle, passed to `submitStar` as a function parameter.
* Promise-based methods are modelled by their settlement behaviour.  A method
  that can reject is modelled with `Except` (`Except.error` = rejection,
  carrying the rejection message); a method that always resolves is a plain
  function on the state.  Where the distinction between resolving with a
  string and resolving with a block matters, the resolved value is the sum
  type `Resolved`.
* Wall-clock reads (`new Date().getTime().toString().slice(0, -3)`, i.e.
  seconds since epoch) are passed in as explicit parameters, one per `Date`
  call in the source.
-/

/-- The payload stored in a block's body.  Only two payload shapes ever enter
the chain in `blockchain.js`: the genesis payload `{data: "Genesis Block"}`
built in `initializeChain`, and the `{address, message, signature, star}`
object built in `submitStar`.  The star itself is an opaque record (a JS
object, hence always truthy). -/
structure StarData where
  dec : String
  ra : String
  story : String
deriving DecidableEq, Repr

/-- A block body: either the genesis payload or a star-registration payload. -/
inductive Body : Type where
  | genesis : Body
  | starPayload (address message signature : String) (star : StarData) : Body
deriving DecidableEq, Repr

/-- Ideal model of `SHA256(JSON.stringify(block)).toString()` as computed in
`_addBlock` (line 78).  At stringification time the block's fields are its
body, its `time` string, its `height` and its `previousBlockHash` (the `hash`
field is still the pre-assignment default, a constant, so it is omitted).
`shaNone`/`shaSome` split on whether `previousBlockHash` was undefined
(`JSON.stringify` drops undefined-valued properties) or a hash string.
Constructor injectivity models the digest's collision resistance. -/
inductive HashVal : Type where
  | shaNone (body : Body) (time : String) (height : Int) : HashVal
  | shaSome (body : Body) (time : String) (height : Int) (prev : HashVal) : HashVal
deriving DecidableEq, Repr

/-- The digest function applied by `_addBlock`: hash of the block's body,
time, height and (optional) previous-block hash. -/
def digest (body : Body) (time : String) (height : Int) :
    Option HashVal → HashVal
  | none => HashVal.shaNone body time height
  | some p => HashVal.shaSome body time height p

/-- The height recorded inside a digest. -/
def HashVal.heightOf : HashVal → Int
  | HashVal.shaNone _ _ h => h
  | HashVal.shaSome _ _ h _ => h

/-- A block of the chain.  Modelled from the spec for the fields set by the
(`block.js`, not in the sources) `Block` constructor: payload (`body`, stored
hex-encoded in the source design, modelled as the payload itself), `time`,
`height`, `previousBlockHash`, `hash`; `_addBlock` overwrites all but `body`.
`none` in `previousBlockHash`/`hash` models `undefined`/`null`. -/
structure Block where
  body : Body
  time : String
  height : Int
  previousBlockHash : Option HashVal
  hash : Option HashVal
deriving DecidableEq, Repr

/-- Modelled from the spec: the `Block` constructor (`new BlockClass.Block(data)`,
defined in `block.js` which is not among the sources) stores the payload and
leaves the linkage metadata at its defaults (`hash = null`, `height = 0`,
`time = 0`, `previousBlockHash = null`); `_addBlock` assigns them all before
the block becomes visible. -/
def Block.ofData (d : Body) : Block :=
  { body := d, time := "0", height := 0, previousBlockHash := none, hash := none }

/-- The `Blockchain` state: the `chain` array and the cached `height`. -/
structure Blockchain where
  chain : List Block
  height : Int
deriving DecidableEq, Repr

/-- The state of a `Blockchain` at the moment its constructor returns
(lines 24-28).  The constructor sets `chain = []`, `height = -1` and calls
`initializeChain()` WITHOUT awaiting it (constructors cannot await):
`initializeChain` is an async function that calls `_addBlock`, whose promise
executor runs synchronously only up to its first `await`
(`await self.getChainHeight()` on line 69), before any mutation of `chain` or
`height`.  So at constructor return - and in any synchronous continuation of
the caller - the chain is still empty; the genesis block is appended in a
later microtask. -/
def mkBlockchain : Blockchain :=
  { chain := [], height := -1 }

/-- The value a promise settles with, for methods whose resolution value's
shape matters (a string versus a block object). -/
inductive Resolved : Type where
  | str (s : String) : Resolved
  | blockVal (b : Block) : Resolved
deriving DecidableEq, Repr

/-- `getChainHeight` (lines 45-50): resolves with the cached height. -/
def getChainHeight (s : Blockchain) : Int :=
  s.height

/-- `getBlockByHeight` (lines 196-206): `self.chain.filter(p => p.height ===
height)[0]`, resolving with the block or with `null` (modelled `none`); the
executor never rejects. -/
def getBlockByHeight (s : Blockchain) (height : Int) : Option Block :=
  (s.chain.filter (fun p => decide (p.height = height))).head?

/-- Rejection message of `submitStar`'s freshness check (line 149). -/
def expiredMsg : String :=
  "5 minutes or more has elapsed, can't register this new block"

/-- Rejection message of `submitStar`'s signature check (line 154):
`${message}:${address}:${signature} can't be verified`. -/
def verifyFailMsg (message address signature : String) : String :=
  message ++ ":" ++ address ++ ":" ++ signature ++ " can't be verified"

/-- `_addBlock` (lines 64-93), as a state transformer returning the new
state, the block object that was pushed, and the promise's resolution value.

Line 70 reads `await self.getBlockByHeight(chainHeight).hash`: member access
binds tighter than `await`, so `.hash` is read off the *Promise object*
returned by `getBlockByHeight`, which has no such property - the result is
`undefined` (then `await undefined` is `undefined`).  Hence the assigned
`previousBlockHash` is always `none`, whatever the chain contains.  The block
then receives `time` (the current epoch-seconds string), `height =
chainHeight + 1`, and its digest; it is pushed and `height` is incremented.
The promise resolves with the string `"Block added"` (line 88), not with the
block. -/
def addBlock (s : Blockchain) (block : Block) (now : String) :
    Blockchain × Block × Resolved :=
  let chainHeight := getChainHeight s
  let previousBlockHash : Option HashVal := none
  let b1 := { block with
    previousBlockHash := previousBlockHash
    time := now
    height := chainHeight + 1 }
  let hash := digest b1.body b1.time b1.height b1.previousBlockHash
  let b2 := { b1 with hash := some hash }
  ({ chain := s.chain ++ [b2], height := s.height + 1 }, b2, Resolved.str "Block added")

/-- `initializeChain` (lines 35-40), run to completion: from the constructor
state (`height = -1`) it builds `new Block({data: "Genesis Block"})` and
passes it to `_addBlock`.  This is the ledger state once the constructor's
asynchronous initialization has settled. -/
def initializedChain (now : String) : Blockchain :=
  (addBlock mkBlockchain (Block.ofData Body.genesis) now).1

/-- `getBlockByHash` (lines 178-189): `self.chain.find(block => block.hash ===
hash)`; rejects (with a message embedding the hash) when no block matches. -/
def getBlockByHashResult (s : Blockchain) (hash : HashVal) : Except String Block :=
  match s.chain.find? (fun b => decide (b.hash = some hash)) with
  | some foundBlock => Except.ok foundBlock
  | none => Except.error "Can't find block with hash"

/-- Splitting a character list at `:` separators. -/
def splitColonAux : List Char → List Char → List String
  | [], acc => [String.mk acc.reverse]
  | c :: cs, acc =>
      if c = ':' then String.mk acc.reverse :: splitColonAux cs []
      else splitColonAux cs (c :: acc)

/-- JS `message.split(":")`. -/
def jsSplit (s : String) : List String :=
  splitColonAux s.data []

/-- Value of a decimal digit character. -/
def digitVal (c : Char) : Nat :=
  c.toNat - 48

/-- JS `parseInt` on a string (radix 10): skip leading whitespace, read an
optional sign and then the longest prefix of decimal digits; `NaN` (modelled
`none`) when that prefix is empty. -/
def jsParseInt (s : String) : Option Int :=
  let t := (s.data).dropWhile (fun c => c = ' ' ∨ c = '\t' ∨ c = '\n')
  let signAndRest : Int × List Char :=
    match t with
    | '-' :: r => (-1, r)
    | '+' :: r => (1, r)
    | r => (1, r)
  let ds := signAndRest.2.takeWhile Char.isDigit
  if ds.isEmpty then none
  else some (signAndRest.1 * (ds.foldl (fun n c => n * 10 + digitVal c) 0 : Nat))

/-- `parseInt(message.split(":")[1])` (line 139): when the message has no
second colon-separated field, `[1]` is `undefined` and `parseInt(undefined)`
is `NaN`; otherwise the field is parsed as above.  `none` models `NaN`. -/
def jsMessageTime (message : String) : Option Int :=
  match (jsSplit message)[1]? with
  | none => none
  | some f => jsParseInt f

/-- The freshness test of line 147, `currentTime - messageTime >= fiveMinutes`,
with JS `NaN` semantics: when the parsed message time is `NaN` every `>=`
comparison against it is false, so the branch is not taken. -/
def freshnessExpired (currentTime : Int) (messageTime : Option Int) : Bool :=
  match messageTime with
  | none => false
  | some m => decide (currentTime - m ≥ 60 * 5)

/-- `submitStar` (lines 131-170), parameterized by the external signature
verifier (`bitcoinMessage.verify`).  `now` is the parsed current time of
line 142 (the real clock is always numeric), `nowStr` the epoch-seconds
string read by `_addBlock`.  Order of checks follows the source: freshness
first (reject line 148), then the verifier (reject line 154), then block
construction and `_addBlock`; on success the promise resolves with the
string `"Block added"` (line 165). -/
def submitStar (verify : String → String → String → Bool) (s : Blockchain)
    (address message signature : String) (star : StarData)
    (now : Int) (nowStr : String) :
    Except String (Blockchain × Block × Resolved) :=
  let messageTime := jsMessageTime message
  if freshnessExpired now messageTime then
    Except.error expiredMsg
  else if ! verify message address signature then
    Except.error (verifyFailMsg message address signature)
  else
    let block := Block.ofData (Body.starPayload address message signature star)
    let r := addBlock s block nowStr
    Except.ok (r.1, r.2.1, Resolved.str "Block added")

/-- The `forEach` callback of `getStarsByWalletAddress` (lines 220-230):
`if (!block.height) return` skips the height-0 genesis block; otherwise the
body is decoded (`block.getBData()`, modelled from the spec as recovering the
stored payload, since `block.js` is not among the sources) and the star is
pushed when the decoded payload is truthy, its `address` field equals the
queried address and its `star` field is truthy.  A genesis-shaped payload has
no `address` field (`undefined === address` is false for every string), and a
star payload's `star` is an object, hence truthy. -/
def starsStep (address : String) (stars : List StarData) (block : Block) :
    List StarData :=
  if block.height = 0 then
    stars
  else
    match block.body with
    | Body.genesis => stars
    | Body.starPayload a _ _ st =>
        if a = address then stars ++ [st] else stars

/-- `getStarsByWalletAddress` (lines 214-238): `forEach` over the chain array
accumulating into `stars`, then resolve with the accumulated list (an empty
array when nothing matched; the executor's catch never fires since the walk
cannot throw). -/
def getStarsByWalletAddress (s : Blockchain) (address : String) : List StarData :=
  s.chain.foldl (starsStep address) []

/-- Modelled from the spec: `block.validate()` (defined in `block.js`, not
among the sources) recomputes the block's digest over its stored contents
(payload, height, timestamp, previousHash) and compares it with the stored
`hash` field. -/
def blockValidate (b : Block) : Bool :=
  decide (b.hash = some (digest b.body b.time b.height b.previousBlockHash))

/-- One validation finding pushed onto `errorLog` in `validateChain`. -/
inductive Finding : Type where
  | blockInvalid (height : Int) : Finding
  | prevHashMismatch (height : Int) : Finding
deriving DecidableEq, Repr

/-- The per-block async task spawned by `validateChain`'s `forEach`
(lines 251-269), run to completion: the list of findings it pushes onto the
shared `errorLog`, paired with whether it threw.  It first runs the
self-hash check, pushing `blockInvalid` on mismatch (line 256); it then
fetches the block at `block.height - 1`.  For the genesis block that lookup
resolves `null`, and reading `previousBlock.hash` off `null` throws a
`TypeError`, caught and turned into a (late, hence swallowed) rejection:
the thrown-flag is `true` and no linkage finding is pushed.  Otherwise it
pushes `prevHashMismatch` when the predecessor's `hash` differs from the
block's `previousBlockHash` (line 262). -/
def blockTask (s : Blockchain) (block : Block) : List Finding × Bool :=
  let l1 := if ! blockValidate block then [Finding.blockInvalid block.height] else []
  match getBlockByHeight s (block.height - 1) with
  | none => (l1, true)
  | some previousBlock =>
      if previousBlock.hash ≠ block.previousBlockHash then
        (l1 ++ [Finding.prevHashMismatch block.height], false)
      else
        (l1, false)

/-- The value `validateChain`'s promise settles with (lines 246-275).  Each
per-block task is an unawaited async closure that suspends at its first
`await` (`block.validate()` returns a Promise) before pushing anything, so
when the executor reaches `if (errorLog.length)` the log is still empty and
the promise resolves `"Chain is valid"`; the tasks' later pushes, and any
late `reject` calls, happen after settlement and are no-ops. -/
def validateChainResolved (s : Blockchain) : Resolved :=
  let errorLogAtCheck : List Finding := []
  if errorLogAtCheck.length ≠ 0 then
    Resolved.str "rejected with errorLog"
  else
    Resolved.str "Chain is valid"

/-- The ledger states reachable through the class's own mutations: the
settled constructor-plus-initialization, followed by any number of
successful `submitStar` appends (each appends a star-payload block built by
`submitStar` via `_addBlock`). -/
inductive Reachable : Blockchain → Prop where
  | init (now : String) : Reachable (initializedChain now)
  | addStar {s : Blockchain} (a m sig : String) (st : StarData) (now : String) :
      Reachable s →
      Reachable (addBlock s (Block.ofData (Body.starPayload a m sig st)) now).1

/-- The block `_addBlock` actually pushes, given the state and the raw block:
the input block with `previousBlockHash := undefined`, the clock string as
`time`, `height = chainHeight + 1` and the digest of those fields. -/
def appendedBlock (s : Blockchain) (block : Block) (now : String) : Block :=
  { body := block.body, time := now, height := s.height + 1,
    previousBlockHash := none,
    hash := some (digest block.body now (s.height + 1) none) }

/-- Unfolding equation for `addBlock`. -/
theorem addBlock_eq (s : Blockchain) (block : Block) (now : String) :
    addBlock s block now
      = ({ chain := s.chain ++ [appendedBlock s block now], height := s.height + 1 },
          appendedBlock s block now, Resolved.str "Block added") := rfl

/-- Structural invariant maintained by `_addBlock`: the cached height is
`chain.length - 1`, the block at index `i` has height `i`, every stored hash
is the digest of the block's own stored fields, and - because of the
`await self.getBlockByHeight(chainHeight).hash` slip - every stored
`previousBlockHash` is `undefined`. -/
def ChainInv (s : Blockchain) : Prop :=
  s.height = (s.chain.length : Int) - 1
  ∧ (∀ (i : Nat) (hi : i < s.chain.length), (s.chain[i]).height = (i : Int))
  ∧ (∀ (i : Nat) (hi : i < s.chain.length),
      (s.chain[i]).hash = some (digest (s.chain[i]).body (s.chain[i]).time
        (s.chain[i]).height (s.chain[i]).previousBlockHash))
  ∧ (∀ b, b ∈ s.chain → b.previousBlockHash = none)

theorem chainInv_mk : ChainInv mkBlockchain := by
  refine ⟨rfl, ?_, ?_, ?_⟩ <;> simp [mkBlockchain]

theorem chainInv_addBlock {s : Blockchain} (hs : ChainInv s) (block : Block)
    (now : String) : ChainInv (addBlock s block now).1 := by
  obtain ⟨h1, h2, h3, h4⟩ := hs
  rw [addBlock_eq]
  refine ⟨?_, ?_, ?_, ?_⟩
  · simp only [List.length_append, List.length_cons, List.length_nil]
    push_cast
    omega
  · intro i hi
    simp only [List.length_append, List.length_cons, List.length_nil] at hi
    rcases Nat.lt_or_ge i s.chain.length with hlt | hge
    · rw [List.getElem_append_left hlt]
      exact h2 i hlt
    · have hieq : i = s.chain.length := by omega
      rw [List.getElem_concat_length _ _ _ hieq]
      simp only [appendedBlock]
      rw [h1, hieq]
      ring
  · intro i hi
    simp only [List.length_append, List.length_cons, List.length_nil] at hi
    rcases Nat.lt_or_ge i s.chain.length with hlt | hge
    · rw [List.getElem_append_left hlt]
      exact h3 i hlt
    · have hieq : i = s.chain.length := by omega
      rw [List.getElem_concat_length _ _ _ hieq]
      rfl
  · intro b hb
    rcases List.mem_append.mp hb with hmem | hmem
    · exact h4 b hmem
    · rcases List.mem_singleton.mp hmem with rfl
      rfl

/-- Every reachable ledger state satisfies the structural invariant. -/
theorem reachable_chainInv {s : Blockchain} (h : Reachable s) : ChainInv s := by
  induction h with
  | init now => exact chainInv_addBlock chainInv_mk _ _
  | addStar a m sig st now _ ih => exact chainInv_addBlock ih _ _

/-- The digest records the height it was computed over. -/
theorem heightOf_digest (b : Body) (t : String) (h : Int) (p : Option HashVal) :
    (digest b t h p).heightOf = h := by
  cases p <;> rfl

/-- In an invariant-satisfying chain, distinct blocks have distinct stored
hashes: each hash is a digest over the block's unique height, and the digest
is collision-free. -/
theorem chainInv_hashes_distinct {s : Blockchain} (hs : ChainInv s) :
    List.Pairwise (fun a b : Block => a.hash ≠ b.hash) s.chain := by
  obtain ⟨-, h2, h3, -⟩ := hs
  rw [List.pairwise_iff_getElem]
  intro i j hi hj hij hEq
  rw [h3 i hi, h3 j hj] at hEq
  have hd := Option.some_inj.mp hEq
  have hh := congrArg HashVal.heightOf hd
  rw [heightOf_digest, heightOf_digest, h2 i hi, h2 j hj] at hh
  have : i = j := by exact_mod_cast hh
  omega

def exStar : StarData :=
  { dec := "68 52 56.9", ra := "16h 29m 1.0s", story := "Testing the story" }

def exampleChain1 : Blockchain := initializedChain "1000"

def exampleChain2 : Blockchain :=
  (addBlock exampleChain1
    (Block.ofData (Body.starPayload "addrA" "addrA:1000:starRegistry" "sig" exStar))
    "1001").1

/-- C1 (code_bug evaluation): after the genesis append and one successful
star append, the heights are exactly 0 and 1 as claimed, but the linkage half
of the claim fails on the code: because line 70 reads `.hash` off a Promise,
the appended block's `previousBlockHash` is `undefined` (`none`), not the
genesis block's `hash`, so the block at height 1 does not link to the block
at height 0. -/
theorem addBlock_previousBlockHash_always_undefined :
    exampleChain2.chain.map Block.height = [0, 1]
    ∧ exampleChain2.chain.map Block.previousBlockHash = [none, none]
    ∧ exampleChain2.chain.map Block.hash
        = [some (digest Body.genesis "1000" 0 none),
           some (digest (Body.starPayload "addrA" "addrA:1000:starRegistry" "sig" exStar) "1001" 1 none)]
    ∧ exampleChain2.chain[1]?.map Block.previousBlockHash
        ≠ exampleChain2.chain[0]?.map Block.hash := by
  refine ⟨rfl, rfl, rfl, by decide⟩

/-- C6 counterexample: immediately after the `Blockchain` constructor
returns, the ledger does NOT have height 0 with exactly one block - the
constructor fires `initializeChain()` without awaiting it, so the state at
constructor return still has `height = -1` and an empty chain, observable by
any synchronously invoked operation. -/
theorem constructor_returns_uninitialized :
    ¬ (mkBlockchain.height = 0 ∧ mkBlockchain.chain.length = 1) := by decide

/-- C6 amended: a freshly constructed ledger can be observed before its
genesis block exists (`getChainHeight` on the constructor-return state gives
-1); once the asynchronous initialization has settled, the ledger has height
0 and exactly one block, whose `previousBlockHash` is the undefined sentinel
and whose payload is the fixed genesis sentinel `{data: "Genesis Block"}`. -/
theorem genesis_present_after_async_init (now : String) :
    getChainHeight mkBlockchain = -1
    ∧ (initializedChain now).height = 0
    ∧ (initializedChain now).chain
        = [{ body := Body.genesis, time := now, height := 0,
             previousBlockHash := none,
             hash := some (digest Body.genesis now 0 none) }] := by
  exact ⟨rfl, rfl, rfl⟩

/-- C2 (code_bug evaluation): `validateChain` does not return its findings.
Its promise always settles with the string `"Chain is valid"` (every
per-block check is an unawaited async task that suspends before pushing, so
`errorLog` is empty when inspected; and had the log been non-empty the code
would `reject` it, throwing rather than returning).  On the two-block example
chain the per-block checks, once they eventually run, produce a
`prevHashMismatch` finding at height 1 and a thrown `TypeError` for genesis -
none of which appear in the settled result. -/
theorem validateChain_resolves_valid_despite_findings :
    validateChainResolved exampleChain2 = Resolved.str "Chain is valid"
    ∧ exampleChain2.chain.map (blockTask exampleChain2)
        = [([], true), ([Finding.prevHashMismatch 1], false)] := by
  exact ⟨rfl, by decide⟩

/-- C3 (code_bug evaluation): `validateChain` does not exempt the genesis
block from the linkage check.  On a freshly initialized ledger the genesis
task fetches the block at height -1, gets `null`, and reading `.hash` off it
throws a `TypeError` (the `true` flag of `blockTask`); the self-hash check is
applied to genesis (and passes) before the throw, as the claim's second half
says. -/
theorem validateChain_genesis_linkage_attempted :
    getBlockByHeight exampleChain1 (0 - 1) = none
    ∧ exampleChain1.chain.map (blockTask exampleChain1) = [([], true)]
    ∧ exampleChain1.chain.map blockValidate = [true] := by
  refine ⟨rfl, by decide, by decide⟩

/-- C4 (code_bug evaluation): a successful `submitStar` resolves with the
string `"Block added"` (line 165), not with the appended block object, and
`_addBlock` likewise resolves `"Block added"` (line 88) for every input; a
string resolution is never a block resolution. -/
theorem submitStar_resolves_status_string :
    (submitStar (fun _ _ _ => true) exampleChain1 "addrA" "addrA:1000:starRegistry"
        "sig" exStar 1000 "1001").map (fun r => r.2.2)
      = Except.ok (Resolved.str "Block added")
    ∧ (∀ (s : Blockchain) (b : Block) (now : String),
        (addBlock s b now).2.2 = Resolved.str "Block added")
    ∧ (∀ b : Block, Resolved.str "Block added" ≠ Resolved.blockVal b) := by
  refine ⟨rfl, fun _ _ _ => rfl, fun b h => by cases h⟩

/-- C5 (confirmed): for a well-formed message whose embedded timestamp
parses to `t`, if `now - t >= 300` the call rejects with the
expired-challenge message, and the result does not depend on the signature
verifier (the freshness check precedes and short-circuits the verifier
call); if `now - t < 300` (in particular 299) and the verifier accepts, the
call succeeds and appends the star block. -/
theorem submitStar_freshness_window (verify verify' : String → String → String → Bool)
    (s : Blockchain) (address message signature : String) (star : StarData)
    (t now : Int) (nowStr : String) (ht : jsMessageTime message = some t) :
    (now - t ≥ 300 →
      submitStar verify s address message signature star now nowStr = Except.error expiredMsg
      ∧ submitStar verify s address message signature star now nowStr
          = submitStar verify' s address message signature star now nowStr)
    ∧ (now - t < 300 → verify message address signature = true →
        submitStar verify s address message signature star now nowStr
          = Except.ok ((addBlock s (Block.ofData (Body.starPayload address message signature star)) nowStr).1,
              (addBlock s (Block.ofData (Body.starPayload address message signature star)) nowStr).2.1,
              Resolved.str "Block added")) := by
  constructor
  · intro hge
    have hex : freshnessExpired now (jsMessageTime message) = true := by
      rw [ht]; simp only [freshnessExpired, decide_eq_true_eq]; omega
    constructor <;> simp [submitStar, hex]
  · intro hlt hv
    have hex : freshnessExpired now (jsMessageTime message) = false := by
      rw [ht]; simp only [freshnessExpired, decide_eq_false_iff_not]; omega
    simp [submitStar, hex, hv]

/-- C10 (confirmed): when the message's second colon-separated field is
missing or non-numeric, `parseInt` gives `NaN`, `currentTime - NaN >= 300`
is false, so the call is not rejected as expired and control falls through
to the signature verification: the result is exactly the verifier-gated
append. -/
theorem submitStar_nan_timestamp_not_expired (verify : String → String → String → Bool)
    (s : Blockchain) (address message signature : String) (star : StarData)
    (now : Int) (nowStr : String) (h : jsMessageTime message = none) :
    submitStar verify s address message signature star now nowStr
      = (if verify message address signature then
          Except.ok ((addBlock s (Block.ofData (Body.starPayload address message signature star)) nowStr).1,
            (addBlock s (Block.ofData (Body.starPayload address message signature star)) nowStr).2.1,
            Resolved.str "Block added")
        else Except.error (verifyFailMsg message address signature)) := by
  have hex : freshnessExpired now (jsMessageTime message) = false := by
    rw [h]; rfl
  by_cases hv : verify message address signature <;> simp [submitStar, hex, hv]

def starMatch (address : String) (b : Block) : Option StarData :=
  if b.height = 0 then none
  else match b.body with
    | Body.genesis => none
    | Body.starPayload a _ _ st => if a = address then some st else none

theorem starsStep_eq (address : String) (stars : List StarData) (b : Block) :
    starsStep address stars b = stars ++ (starMatch address b).toList := by
  unfold starsStep starMatch
  split
  · simp
  · split
    · simp
    · split <;> simp

theorem foldl_starsStep (address : String) (l : List Block) (acc : List StarData) :
    l.foldl (starsStep address) acc = acc ++ l.filterMap (starMatch address) := by
  induction l generalizing acc with
  | nil => simp
  | cons x xs ih =>
    rw [List.foldl_cons, starsStep_eq, ih, List.filterMap_cons]
    cases h : starMatch address x <;> simp [h]

/-- C7 (confirmed): `getStarsByWalletAddress` equals the chain-order
`filterMap` that skips the height-0 genesis block and keeps exactly the
stars of blocks whose payload address equals the queried address; on
reachable states the chain is ordered by strictly increasing height, so the
result is in ascending height order; and when no block matches the result is
the empty list (a normal resolution, never an error). -/
theorem getStars_characterization (s : Blockchain) (hs : Reachable s) (address : String) :
    getStarsByWalletAddress s address = s.chain.filterMap (starMatch address)
    ∧ List.Pairwise (fun a b : Block => a.height < b.height) s.chain
    ∧ ((∀ b, b ∈ s.chain → starMatch address b = none) →
        getStarsByWalletAddress s address = []) := by
  have h1 : getStarsByWalletAddress s address = s.chain.filterMap (starMatch address) := by
    unfold getStarsByWalletAddress
    simpa using foldl_starsStep address s.chain []
  obtain ⟨-, h2, -, -⟩ := reachable_chainInv hs
  refine ⟨h1, ?_, ?_⟩
  · rw [List.pairwise_iff_getElem]
    intro i j hi hj hij
    rw [h2 i hi, h2 j hj]
    exact_mod_cast hij
  · intro hnone
    rw [h1, List.filterMap_eq_nil_iff]
    exact hnone

theorem find?_hash_unique {l : List Block}
    (hp : List.Pairwise (fun a b : Block => a.hash ≠ b.hash) l)
    {b : Block} (hb : b ∈ l) {q : HashVal} (hq : b.hash = some q) :
    l.find? (fun x => decide (x.hash = some q)) = some b := by
  induction l with
  | nil => cases hb
  | cons x xs ih =>
    rcases List.pairwise_cons.mp hp with ⟨hx, hxs⟩
    rcases List.mem_cons.mp hb with rfl | hmem
    · simp [List.find?_cons, hq]
    · have hxq : decide (x.hash = some q) = false := by
        simp only [decide_eq_false_iff_not]
        intro hcontra
        exact hx b hmem (by rw [hcontra, hq])
      rw [List.find?_cons, hxq]
      exact ih hxs hmem

/-- C8 (confirmed): on reachable states, looking up any appended block by
its stored hash returns exactly that block (stored hashes are pairwise
distinct, so the linear `find` cannot return another block), and looking up
a hash stored in no block rejects with the not-found message. -/
theorem getBlockByHash_roundtrip (s : Blockchain) (hs : Reachable s) (q : HashVal) :
    (∀ b, b ∈ s.chain → b.hash = some q →
      getBlockByHashResult s q = Except.ok b)
    ∧ ((∀ b, b ∈ s.chain → b.hash ≠ some q) →
      getBlockByHashResult s q = Except.error "Can't find block with hash") := by
  have hp := chainInv_hashes_distinct (reachable_chainInv hs)
  constructor
  · intro b hb hq
    unfold getBlockByHashResult
    rw [find?_hash_unique hp hb hq]
  · intro hnone
    unfold getBlockByHashResult
    have hfind : s.chain.find? (fun x => decide (x.hash = some q)) = none := by
      rw [List.find?_eq_none]
      intro x hx
      simp [hnone x hx]
    rw [hfind]

/-- C9 (confirmed): on reachable states `getBlockByHeight` resolves `null`
(modelled `none`), never an error, for any height outside the range of
existing heights, and resolves the block whose `height` field equals the
queried height when it is in range. -/
theorem getBlockByHeight_null_out_of_range (s : Blockchain) (hs : Reachable s) (h : Int) :
    ((h < 0 ∨ s.height < h) → getBlockByHeight s h = none)
    ∧ (0 ≤ h → h ≤ s.height →
        ∃ b, getBlockByHeight s h = some b ∧ b ∈ s.chain ∧ b.height = h) := by
  obtain ⟨h1, h2, -, -⟩ := reachable_chainInv hs
  constructor
  · intro hout
    unfold getBlockByHeight
    have hfil : s.chain.filter (fun p => decide (p.height = h)) = [] := by
      rw [List.filter_eq_nil_iff]
      intro a ha
      rcases List.mem_iff_getElem.mp ha with ⟨i, hi, rfl⟩
      simp only [decide_eq_true_eq]
      rw [h2 i hi]
      rw [h1] at hout
      rcases hout with hlt | hgt
      · omega
      · omega
    rw [hfil]
    rfl
  · intro h0 hle
    have hi : h.toNat < s.chain.length := by
      rw [h1] at hle
      omega
    have hmem : s.chain[h.toNat] ∈ s.chain.filter (fun p => decide (p.height = h)) := by
      apply List.mem_filter.mpr
      refine ⟨List.getElem_mem hi, ?_⟩
      simp only [decide_eq_true_eq]
      rw [h2 h.toNat hi]
      omega
    have hne : s.chain.filter (fun p => decide (p.height = h)) ≠ [] :=
      List.ne_nil_of_mem hmem
    refine ⟨(s.chain.filter (fun p => decide (p.height = h))).head hne, ?_, ?_, ?_⟩
    · unfold getBlockByHeight
      exact List.head?_eq_head hne
    · exact (List.mem_filter.mp (List.head_mem hne)).1
    · have := (List.mem_filter.mp (List.head_mem hne)).2
      simpa using this

def wStarA1 : StarData := { dec := "10", ra := "1h", story := "first A star" }

def wStarB : StarData := { dec := "20", ra := "2h", story := "B star" }

def wStarA2 : StarData := { dec := "30", ra := "3h", story := "second A star" }

/-- Three star blocks for addresses A, B, A on top of genesis. -/
def witnessChain : Blockchain :=
  (addBlock
    (addBlock
      (addBlock (initializedChain "1000")
        (Block.ofData (Body.starPayload "A" "mA1" "sgA1" wStarA1)) "1001").1
      (Block.ofData (Body.starPayload "B" "mB" "sgB" wStarB)) "1002").1
    (Block.ofData (Body.starPayload "A" "mA2" "sgA2" wStarA2)) "1003").1

theorem submitStar_freshness_window_witness :
    jsMessageTime "addrA:1000:starRegistry" = some 1000
    ∧ submitStar (fun _ _ _ => false) exampleChain1 "addrA" "addrA:1000:starRegistry"
        "sig" exStar 1300 "1300" = Except.error expiredMsg :=
  ⟨by decide,
   ((submitStar_freshness_window (fun _ _ _ => false) (fun _ _ _ => true)
      exampleChain1 "addrA" "addrA:1000:starRegistry" "sig" exStar 1000 1300 "1300"
      (by decide)).1 (by decide)).1⟩

theorem submitStar_nan_timestamp_witness :
    jsMessageTime "noColonsHere" = none
    ∧ submitStar (fun _ _ _ => false) exampleChain1 "addrA" "noColonsHere" "sig"
        exStar 999999 "1300" = Except.error (verifyFailMsg "noColonsHere" "addrA" "sig") :=
  ⟨by decide,
   submitStar_nan_timestamp_not_expired (fun _ _ _ => false) exampleChain1 "addrA"
     "noColonsHere" "sig" exStar 999999 "1300" (by decide)⟩

theorem getStars_characterization_witness :
    getStarsByWalletAddress witnessChain "A"
        = witnessChain.chain.filterMap (starMatch "A")
    ∧ getStarsByWalletAddress witnessChain "A" = [wStarA1, wStarA2]
    ∧ getStarsByWalletAddress witnessChain "C" = [] :=
  ⟨(getStars_characterization witnessChain
      (Reachable.addStar _ _ _ _ _ (Reachable.addStar _ _ _ _ _
        (Reachable.addStar _ _ _ _ _ (Reachable.init "1000")))) "A").1,
   by decide,
   (getStars_characterization witnessChain
      (Reachable.addStar _ _ _ _ _ (Reachable.addStar _ _ _ _ _
        (Reachable.addStar _ _ _ _ _ (Reachable.init "1000")))) "C").2.2 (by decide)⟩

/-- The genesis block of `exampleChain1`, as stored. -/
def genesisBlock1 : Block :=
  { body := Body.genesis, time := "1000", height := 0,
    previousBlockHash := none,
    hash := some (digest Body.genesis "1000" 0 none) }

theorem getBlockByHash_roundtrip_witness :
    getBlockByHashResult exampleChain1 (digest Body.genesis "1000" 0 none)
        = Except.ok genesisBlock1
    ∧ getBlockByHashResult exampleChain1 (digest Body.genesis "9999" 0 none)
        = Except.error "Can't find block with hash" :=
  ⟨(getBlockByHash_roundtrip exampleChain1 (Reachable.init "1000")
      (digest Body.genesis "1000" 0 none)).1 genesisBlock1 (by decide) (by decide),
   (getBlockByHash_roundtrip exampleChain1 (Reachable.init "1000")
      (digest Body.genesis "9999" 0 none)).2 (by decide)⟩

theorem getBlockByHeight_null_witness :
    getBlockByHeight exampleChain1 5 = none
    ∧ (∃ b, getBlockByHeight exampleChain1 0 = some b
        ∧ b ∈ exampleChain1.chain ∧ b.height = 0) :=
  ⟨(getBlockByHeight_null_out_of_range exampleChain1 (Reachable.init "1000") 5).1
      (by decide),
   (getBlockByHeight_null_out_of_range exampleChain1 (Reachable.init "1000") 0).2
      (by decide) (by decide)⟩
